import Mathlib

/-!
# Verification of the CEP→weather pipeline

Shallow embedding of the Go repository `cep-weather`:

* `validate` — the `^\d{8}$` format check shared by the ingress gateway
  (service-a), the orchestrator (service-b) and the single-service variant
  (`cmd`), mirrored by a tiny anchored character-class matcher;
* `GetLocationByCEP` — `internal/location/viacep.go`;
* `GetTemperature` — `internal/weather/weather.go`;
* `serviceBHandler` — the orchestrator handler in `service-b/main.go`;
* `systemHandler` — the gateway handler of service-a composed with the
  orchestrator (the Gateway→Orchestrator hop);
* `cmdHandler` — the single-service variant handler shipped next to
  `cmd/main_test.go`.

External I/O (the two upstream HTTP services, the gateway→orchestrator hop,
and the JSON decoder) is modelled by explicit outcome parameters; `float64`
temperature values are modelled as rationals, so the arithmetic
`tempC*1.8+32` / `tempC+273` is represented by the exact same expressions.
OpenTelemetry spans are modelled as explicit event lists: each resolver call
returns the sequence of span operations (`Start`, attribute writes,
`RecordError`, `SetStatus`, the deferred `End`) it performed on its own span.
-/

/-- The character class `\d` of Go's regexp package: the ASCII digits. -/
def matchesDigit (c : Char) : Bool := '0' ≤ c && c ≤ '9'

/-- Anchored matching of a sequence of character classes against a string,
the semantics of a Go regexp of the shape `^c₁c₂…cₙ$`: the input must be
consumed exactly, one character per class. -/
def matchClasses : List (Char → Bool) → List Char → Bool
  | [], [] => true
  | [], _ :: _ => false
  | _ :: _, [] => false
  | p :: ps, c :: cs => p c && matchClasses ps cs

/-- The pattern `^\d{8}$`: eight repetitions of the digit class. -/
def cepPattern : List (Char → Bool) := List.replicate 8 matchesDigit

/-- `regexp.MustCompile("^\\d{8}$").MatchString` — the code-format validator
used verbatim in service-a (`part_002` line 53), service-b
(`service-b/main.go` line 73) and the single-service variant. -/
def validate (s : String) : Bool := matchClasses cepPattern s.data

/-- Status values assignable to a span via `span.SetStatus` (OTel `codes`). -/
inductive SpanStatus where
  | ok (msg : String)
  | error (msg : String)
  deriving DecidableEq, Repr

/-- One operation performed on a span.  A resolver call is recorded as the
list of operations it performed on its own span, in program order; the
deferred `span.End()` becomes a final `closeSpan` event on every path. -/
inductive SpanEvent where
  | start (name : String)
  | attrStr (key val : String)
  | attrInt (key : String) (val : Int)
  | attrRat (key : String) (val : ℚ)
  | recordError (msg : String)
  | setStatus (st : SpanStatus)
  | closeSpan
  deriving DecidableEq, Repr

/-- `Error()` rendering of a Go `*url.Error` wrapping `cause`, as produced by
`http.Client.Do` (op `Get`) and `url.Parse` (op `parse`):
`op "URL": cause`. -/
def urlError (op u cause : String) : String :=
  op ++ " \"" ++ u ++ "\": " ++ cause

/-- A hexadecimal digit as an uppercase character (Go `"0123456789ABCDEF"`). -/
def hexDigitChar (n : Nat) : Char :=
  if n < 10 then Char.ofNat (48 + n) else Char.ofNat (55 + n)

/-- Percent-encoding of one byte, `%XX` with uppercase hex. -/
def percentByte (b : Nat) : String :=
  String.mk ['%', hexDigitChar (b / 16), hexDigitChar (b % 16)]

/-- Bytes Go's `url.QueryEscape` leaves unescaped in a query component:
ASCII alphanumerics and `-._~`. -/
def isUnreservedQueryByte (b : Nat) : Bool :=
  (65 ≤ b && b ≤ 90) || (97 ≤ b && b ≤ 122) || (48 ≤ b && b ≤ 57) ||
    b == 45 || b == 95 || b == 46 || b == 126

/-- The UTF-8 byte sequence of one character (Go strings are UTF-8 bytes;
`url.QueryEscape` operates on those bytes). -/
def utf8Bytes (c : Char) : List Nat :=
  let n := c.toNat
  if n < 128 then [n]
  else if n < 2048 then [192 + n / 64, 128 + n % 64]
  else if n < 65536 then [224 + n / 4096, 128 + (n / 64) % 64, 128 + n % 64]
  else [240 + n / 262144, 128 + (n / 4096) % 64, 128 + (n / 64) % 64, 128 + n % 64]

/-- Go's `url.QueryEscape`: operates on the UTF-8 bytes of the string,
maps space to `+`, keeps unreserved bytes, percent-encodes the rest. -/
def queryEscape (s : String) : String :=
  String.join ((s.data.flatMap utf8Bytes).map fun n =>
    if n == 32 then "+"
    else if isUnreservedQueryByte n then String.mk [Char.ofNat n]
    else percentByte n)

/-- The location lookup URL, `fmt.Sprintf(location.BaseURL, cep)` with the
default `BaseURL = "https://viacep.com.br/ws/%s/json/"`. -/
def viacepURL (cep : String) : String :=
  "https://viacep.com.br/ws/" ++ cep ++ "/json/"

/-- The weather lookup URL, `fmt.Sprintf(weather.ApiURL, apiKey, escapedCity)`
with the default
`ApiURL = "https://api.weatherapi.com/v1/current.json?key=%s&q=%s"`. -/
def weatherURL (apiKey escapedCity : String) : String :=
  "https://api.weatherapi.com/v1/current.json?key=" ++ apiKey ++ "&q=" ++ escapedCity

/-- `location.Location`: the decoded ViaCEP payload (`localidade` field). -/
structure Location where
  city : String
  deriving DecidableEq, Repr

instance {ε α : Type} [DecidableEq ε] [DecidableEq α] : DecidableEq (Except ε α)
  | .error a, .error b =>
      if h : a = b then .isTrue (by rw [h])
      else .isFalse (fun hc => h (by cases hc; rfl))
  | .error _, .ok _ => .isFalse (fun hc => Except.noConfusion hc)
  | .ok _, .error _ => .isFalse (fun hc => Except.noConfusion hc)
  | .ok a, .ok b =>
      if h : a = b then .isTrue (by rw [h])
      else .isFalse (fun hc => h (by cases hc; rfl))

/-- Outcome of the single HTTP exchange `GetLocationByCEP` attempts, as the
caller observes it.  `response` carries the HTTP status together with the
result of running `encoding/json` on the body: either the decoder's error
message, or the decoded `localidade` (a missing field decodes to `""`).
Note: the location resolver never inspects the status code. -/
inductive LocUpstream where
  | buildFailure (cause : String)
  | transportFailure (cause : String)
  | response (status : Nat) (decoded : Except String String)
  deriving DecidableEq, Repr

/-- Typed view of the errors `GetLocationByCEP` can return; `message`
recovers the Go `err.Error()` string the orchestrator dispatches on. -/
inductive LocError where
  | build (msg : String)
  | transport (msg : String)
  | decode (msg : String)
  | notFound
  deriving DecidableEq, Repr

/-- `err.Error()` for each error returned by `GetLocationByCEP`. -/
def LocError.message : LocError → String
  | .build m => m
  | .transport m => m
  | .decode m => m
  | .notFound => "zipcode not found"

/-- Everything one call to `GetLocationByCEP` produced: the operations on its
own span, whether `client.Do` was executed (a network request issued), and
the returned value or error. -/
structure LocationCall where
  span : List SpanEvent
  networkIssued : Bool
  result : Except LocError Location
  deriving DecidableEq, Repr

/-- `internal/location/viacep.go` `GetLocationByCEP`: opens the
`viacep-api-call` span, tags it with the code and URL, performs the lookup,
and on every path ends the span once (the `defer span.End()`).  Transport
and request-build failures carry the `url.Error`-wrapped message produced by
`net/http`; an empty/missing `localidade` is the `zipcode not found`
sentinel. -/
def GetLocationByCEP (cep : String) (up : LocUpstream) : LocationCall :=
  let u := viacepURL cep
  let base := [SpanEvent.start "viacep-api-call",
               SpanEvent.attrStr "viacep.cep" cep,
               SpanEvent.attrStr "http.url" u]
  match up with
  | .buildFailure cause =>
      let m := urlError "parse" u cause
      { span := base ++ [.recordError m, .setStatus (.error m), .closeSpan],
        networkIssued := false, result := .error (.build m) }
  | .transportFailure cause =>
      let m := urlError "Get" u cause
      { span := base ++ [.recordError m, .setStatus (.error m), .closeSpan],
        networkIssued := true, result := .error (.transport m) }
  | .response status decoded =>
      let stAttr := [SpanEvent.attrInt "http.status_code" (Int.ofNat status)]
      match decoded with
      | .error m =>
          { span := base ++ stAttr ++
              [.recordError m, .setStatus (.error m), .closeSpan],
            networkIssued := true, result := .error (.decode m) }
      | .ok city =>
          if city == "" then
            { span := base ++ stAttr ++
                [.recordError "zipcode not found",
                 .setStatus (.error "zipcode not found"), .closeSpan],
              networkIssued := true, result := .error .notFound }
          else
            { span := base ++ stAttr ++
                [.attrStr "viacep.city" city,
                 .setStatus (.ok "CEP encontrado com sucesso"), .closeSpan],
              networkIssued := true, result := .ok ⟨city⟩ }

/-- Body of a WeatherAPI response as the caller observes it: the raw bytes
(read by `io.ReadAll` in the non-200 branch) together with the result of
running `encoding/json` on them — the decoder's error message, or the
`current.temp_c` field of the decoded `WeatherResponse`. -/
structure WBody where
  raw : String
  decoded : Except String ℚ
  deriving DecidableEq, Repr

/-- Outcome of the single HTTP exchange `GetTemperature` attempts. -/
inductive WUpstream where
  | buildFailure (cause : String)
  | transportFailure (cause : String)
  | response (status : Nat) (body : WBody)
  deriving DecidableEq, Repr

/-- Typed view of the errors `GetTemperature` can return. -/
inductive WeatherError where
  | config
  | build (msg : String)
  | transport (msg : String)
  | upstream
  | decode (msg : String)
  deriving DecidableEq, Repr

/-- `err.Error()` for each error returned by `GetTemperature`. -/
def WeatherError.message : WeatherError → String
  | .config => "WEATHER_API_KEY not set"
  | .build m => m
  | .transport m => m
  | .upstream => "weather lookup failed"
  | .decode m => m

/-- Everything one call to `GetTemperature` produced: the operations on its
own span, whether `client.Do` was executed (a network request issued), the
response body captured for diagnostic logging (non-200 branch only), and the
returned Celsius value or error. -/
structure WeatherCall where
  span : List SpanEvent
  networkIssued : Bool
  loggedBody : Option String
  result : Except WeatherError ℚ
  deriving DecidableEq, Repr

/-- `internal/weather/weather.go` `GetTemperature`: opens the
`weatherapi-call` span (before anything else, including the credential
check), reads `WEATHER_API_KEY` (`apiKey = ""` models the unset variable),
URL-escapes the city, tags the span with the city and the full request URL,
performs the lookup, rejects any status other than 200 (`http.StatusOK`)
after capturing the body for logging, decodes a 200 body, and on every path
ends the span once (the `defer span.End()`). -/
def GetTemperature (apiKey city : String) (up : WUpstream) : WeatherCall :=
  let base := [SpanEvent.start "weatherapi-call"]
  if apiKey == "" then
    { span := base ++ [.recordError "WEATHER_API_KEY not set",
        .setStatus (.error "WEATHER_API_KEY not set"), .closeSpan],
      networkIssued := false, loggedBody := none, result := .error .config }
  else
    let u := weatherURL apiKey (queryEscape city)
    let tagged := base ++ [SpanEvent.attrStr "weatherapi.city" city,
                           SpanEvent.attrStr "http.url" u]
    match up with
    | .buildFailure cause =>
        let m := urlError "parse" u cause
        { span := tagged ++ [.recordError m, .setStatus (.error m), .closeSpan],
          networkIssued := false, loggedBody := none, result := .error (.build m) }
    | .transportFailure cause =>
        let m := urlError "Get" u cause
        { span := tagged ++ [.recordError m, .setStatus (.error m), .closeSpan],
          networkIssued := true, loggedBody := none, result := .error (.transport m) }
    | .response status body =>
        let withSt := tagged ++ [SpanEvent.attrInt "http.status_code" (Int.ofNat status)]
        if status ≠ 200 then
          { span := withSt ++ [.recordError "weather lookup failed",
              .setStatus (.error "weather lookup failed"), .closeSpan],
            networkIssued := true, loggedBody := some body.raw,
            result := .error .upstream }
        else
          match body.decoded with
          | .error m =>
              { span := withSt ++ [.recordError m, .setStatus (.error m), .closeSpan],
                networkIssued := true, loggedBody := none,
                result := .error (.decode m) }
          | .ok t =>
              { span := withSt ++ [.attrRat "weather.temperature_celsius" t,
                  .setStatus (.ok "Temperatura obtida com sucesso"), .closeSpan],
                networkIssued := true, loggedBody := none, result := .ok t }

/-- Result of running `encoding/json` on an inbound request body expecting
an object with a `cep` field: the decoder's error message, or the decoded
`cep` string (a missing field decodes to `""`). -/
inductive ReqBody where
  | malformed (msg : String)
  | object (cep : String)
  deriving DecidableEq, Repr

/-- `WeatherResponse` of `service-b/main.go`: the assembled outward body. -/
structure WeatherResponse where
  city : String
  temp_C : ℚ
  temp_F : ℚ
  temp_K : ℚ
  deriving DecidableEq, Repr

/-- Body of an orchestrator reply: an `http.Error` text or the assembled
JSON weather response. -/
inductive OrcBody where
  | errorText (msg : String)
  | weather (r : WeatherResponse)
  deriving DecidableEq, Repr

/-- Everything one invocation of the service-b handler produced: status and
body sent to the caller, the operations on its parent
`process-weather-request` span, and the records of the resolver calls it
performed (`none` when a stage was never reached). -/
structure OrcOutcome where
  status : Nat
  body : OrcBody
  span : List SpanEvent
  loc : Option LocationCall
  wx : Option WeatherCall
  deriving DecidableEq, Repr

/-- Whether the location stage issued a network request to its upstream. -/
def OrcOutcome.locationNetworkIssued (o : OrcOutcome) : Bool :=
  match o.loc with
  | none => false
  | some c => c.networkIssued

/-- Whether the temperature stage issued a network request to its upstream. -/
def OrcOutcome.weatherNetworkIssued (o : OrcOutcome) : Bool :=
  match o.wx with
  | none => false
  | some c => c.networkIssued

/-- The `handler` of `service-b/main.go` (the orchestrator).  `apiKey` is
the process-wide `WEATHER_API_KEY` (`""` when unset); `method` and `body`
describe the inbound request; `locUp`/`wxUp` the behaviour of the two
upstream services during this request.  Combines: method check (405), body
decode (422), `^\d{8}$` validation (422), location stage (404 exactly when
the returned error's `Error()` string is `"zipcode not found"`, else 500),
temperature stage (any error 500), and assembly
(`tempF = tempC*1.8+32`, `tempK = tempC+273`, status 200). -/
def serviceBHandler (apiKey method : String) (body : ReqBody)
    (locUp : LocUpstream) (wxUp : WUpstream) : OrcOutcome :=
  let base := [SpanEvent.start "process-weather-request"]
  if method ≠ "POST" then
    { status := 405, body := .errorText "Method not allowed",
      span := base ++ [.recordError ("método não permitido: " ++ method), .closeSpan],
      loc := none, wx := none }
  else
    match body with
    | .malformed m =>
        { status := 422, body := .errorText "invalid zipcode",
          span := base ++ [.recordError m, .closeSpan], loc := none, wx := none }
    | .object cep =>
        if !validate cep then
          { status := 422, body := .errorText "invalid zipcode",
            span := base ++ [.recordError ("formato de CEP inválido: " ++ cep), .closeSpan],
            loc := none, wx := none }
        else
          let lc := GetLocationByCEP cep locUp
          match lc.result with
          | .error e =>
              if e.message == "zipcode not found" then
                { status := 404, body := .errorText "can not find zipcode",
                  span := base ++ [.recordError e.message, .closeSpan],
                  loc := some lc, wx := none }
              else
                { status := 500, body := .errorText "Internal server error",
                  span := base ++ [.recordError e.message, .closeSpan],
                  loc := some lc, wx := none }
          | .ok loc =>
              let wc := GetTemperature apiKey loc.city wxUp
              match wc.result with
              | .error we =>
                  { status := 500, body := .errorText "Internal server error",
                    span := base ++ [.recordError we.message, .closeSpan],
                    loc := some lc, wx := some wc }
              | .ok tempC =>
                  { status := 200,
                    body := .weather { city := loc.city, temp_C := tempC,
                                       temp_F := tempC * 1.8 + 32,
                                       temp_K := tempC + 273 },
                    span := base ++ [.closeSpan],
                    loc := some lc, wx := some wc }

/-- Outcome of the gateway's network hop to the orchestrator:
`http.NewRequestWithContext` failure, `client.Do` failure, or delivery of
the request (in which case the orchestrator's reply is relayed verbatim). -/
inductive HopOutcome where
  | buildFailure (cause : String)
  | transportFailure (cause : String)
  | delivered
  deriving DecidableEq, Repr

/-- Everything one end-to-end request through the gateway produced: status
and body the client sees, and the orchestrator's outcome when the gateway
actually contacted it (`none` otherwise). -/
structure SystemOutcome where
  status : Nat
  body : OrcBody
  orc : Option OrcOutcome
  deriving DecidableEq, Repr

/-- `true` iff the gateway issued its outbound call to the orchestrator. -/
def SystemOutcome.orchestratorContacted (s : SystemOutcome) : Bool :=
  s.orc.isSome

/-- Whether any network request reached the location upstream end-to-end. -/
def SystemOutcome.locationNetworkIssued (s : SystemOutcome) : Bool :=
  match s.orc with
  | none => false
  | some o => o.locationNetworkIssued

/-- Whether any network request reached the temperature upstream
end-to-end. -/
def SystemOutcome.weatherNetworkIssued (s : SystemOutcome) : Bool :=
  match s.orc with
  | none => false
  | some o => o.weatherNetworkIssued

/-- The `handler` of service-a (`part_002`) composed with the orchestrator
over the Gateway→Orchestrator hop.  The gateway checks the method (405),
decodes the body (422), re-validates `^\d{8}$` (422, returning before any
outbound call), then re-serializes `{cep}` and posts it to service-b,
relaying the orchestrator's status and body byte-for-byte; a failure to
build or perform the hop request is its own 500.  (`json.Marshal` of the
`Request` struct cannot fail and is not modelled as a failure point.) -/
def systemHandler (apiKey method : String) (body : ReqBody) (hop : HopOutcome)
    (locUp : LocUpstream) (wxUp : WUpstream) : SystemOutcome :=
  if method ≠ "POST" then
    { status := 405, body := .errorText "Method not allowed", orc := none }
  else
    match body with
    | .malformed _ =>
        { status := 422, body := .errorText "invalid zipcode", orc := none }
    | .object cep =>
        if !validate cep then
          { status := 422, body := .errorText "invalid zipcode", orc := none }
        else
          match hop with
          | .buildFailure _ =>
              { status := 500, body := .errorText "Internal server error", orc := none }
          | .transportFailure _ =>
              { status := 500, body := .errorText "Internal server error", orc := none }
          | .delivered =>
              let o := serviceBHandler apiKey "POST" (.object cep) locUp wxUp
              { status := o.status, body := o.body, orc := some o }

/-- `Response` of the single-service variant (`cmd`). -/
structure CmdResponse where
  temp_C : ℚ
  temp_F : ℚ
  temp_K : ℚ
  deriving DecidableEq, Repr

/-- Body of a single-service-variant reply. -/
inductive CmdBody where
  | errorText (msg : String)
  | weather (r : CmdResponse)
  deriving DecidableEq, Repr

/-- Outcome of one request to the single-service variant handler. -/
structure CmdOutcome where
  status : Nat
  body : CmdBody
  deriving DecidableEq, Repr

/-- The `handler` of the single-service variant (the `cmd` program exercised
by `cmd/main_test.go`): takes `cep` from the query string, validates it
(422), and maps EVERY error from the location lookup to 404 — it does not
distinguish `zipcode not found` from transport or decode failures.  A
temperature-stage error is 500; success is 200 with the converted
temperatures (no explicit `WriteHeader`, so Go defaults to 200). -/
def cmdHandler (cep apiKey : String) (locUp : LocUpstream) (wxUp : WUpstream) :
    CmdOutcome :=
  if !validate cep then
    { status := 422, body := .errorText "CEP invalido" }
  else
    match (GetLocationByCEP cep locUp).result with
    | .error _ => { status := 404, body := .errorText "CEP nao encontrado" }
    | .ok loc =>
        match (GetTemperature apiKey loc.city wxUp).result with
        | .error _ => { status := 500, body := .errorText "Falha ao obter temperatura" }
        | .ok tempC =>
            { status := 200,
              body := .weather { temp_C := tempC, temp_F := tempC * 1.8 + 32,
                                 temp_K := tempC + 273 } }

/-- Recognizer for `start` span events. -/
def isStart : SpanEvent → Bool
  | .start _ => true
  | _ => false

/-- Recognizer for `closeSpan` span events. -/
def isClose : SpanEvent → Bool
  | .closeSpan => true
  | _ => false

/-- The last event of a span operation sequence. -/
def lastEvent : List SpanEvent → Option SpanEvent
  | [] => none
  | [e] => some e
  | _ :: e :: rest => lastEvent (e :: rest)

/-- The span lifecycle contract: the recorded operation sequence opens the
span exactly once, closes it exactly once, opens it first and closes it
last. -/
def spanDiscipline (l : List SpanEvent) : Prop :=
  l.countP isStart = 1 ∧ l.countP isClose = 1 ∧
    (∃ n, l.head? = some (.start n)) ∧ lastEvent l = some .closeSpan

theorem matchClasses_replicate (p : Char → Bool) :
    ∀ (n : Nat) (l : List Char),
      matchClasses (List.replicate n p) l = true ↔
        l.length = n ∧ ∀ c ∈ l, p c = true := by
  intro n
  induction n with
  | zero =>
    intro l
    cases l with
    | nil => simp [matchClasses]
    | cons c cs => simp [matchClasses]
  | succ n ih =>
    intro l
    cases l with
    | nil => simp [matchClasses]
    | cons c cs =>
      rw [List.replicate_succ]
      simp only [matchClasses, Bool.and_eq_true, ih cs, List.length_cons,
        List.mem_cons]
      constructor
      · rintro ⟨hc, hlen, hall⟩
        refine ⟨by omega, ?_⟩
        rintro x (rfl | hx)
        · exact hc
        · exact hall x hx
      · rintro ⟨hlen, hall⟩
        exact ⟨hall c (Or.inl rfl), by omega, fun x hx => hall x (Or.inr hx)⟩

/-- The `Error()` string of the `*url.Error` produced by `http.Client.Do`
— which always renders as `Get "URL": cause` — is never the
`zipcode not found` sentinel. -/
theorem urlErrorGet_ne_notfound (u cause : String) :
    urlError "Get" u cause ≠ "zipcode not found" := by
  intro h
  have hd := congrArg (fun s => s.data.head?) h
  simp [urlError, String.data_append] at hd

/-- The `Error()` string of the `*url.Error` produced by `url.Parse` inside
`http.NewRequestWithContext` — which always renders as `parse "URL": cause`
— is never the `zipcode not found` sentinel. -/
theorem urlErrorParse_ne_notfound (u cause : String) :
    urlError "parse" u cause ≠ "zipcode not found" := by
  intro h
  have hd := congrArg (fun s => s.data.head?) h
  simp [urlError, String.data_append] at hd

/-- C1: the format validator returns `true` exactly on strings of exactly 8
ASCII decimal digits — no extra characters anywhere, no separators, no
whitespace tolerance.  Purity and determinism are inherent: `validate` is a
pure function of its argument. -/
theorem c1_validator_exactly_8_digits (s : String) :
    validate s = true ↔ s.length = 8 ∧ ∀ c ∈ s.data, '0' ≤ c ∧ c ≤ '9' := by
  unfold validate cepPattern
  rw [matchClasses_replicate]
  show s.data.length = 8 ∧ _ ↔ _
  constructor
  · rintro ⟨hlen, hall⟩
    refine ⟨hlen, fun c hc => ?_⟩
    have := hall c hc
    simpa [matchesDigit, Bool.and_eq_true] using this
  · rintro ⟨hlen, hall⟩
    refine ⟨hlen, fun c hc => ?_⟩
    have := hall c hc
    simpa [matchesDigit, Bool.and_eq_true] using this

theorem sbh_notPost (apiKey method : String) (body : ReqBody)
    (locUp : LocUpstream) (wxUp : WUpstream) (hm : method ≠ "POST") :
    serviceBHandler apiKey method body locUp wxUp =
      { status := 405, body := .errorText "Method not allowed",
        span := [.start "process-weather-request",
                 .recordError ("método não permitido: " ++ method), .closeSpan],
        loc := none, wx := none } := by
  simp [serviceBHandler, hm]

theorem sbh_malformedBody (apiKey : String) (m : String)
    (locUp : LocUpstream) (wxUp : WUpstream) :
    serviceBHandler apiKey "POST" (.malformed m) locUp wxUp =
      { status := 422, body := .errorText "invalid zipcode",
        span := [.start "process-weather-request", .recordError m, .closeSpan],
        loc := none, wx := none } := by
  simp [serviceBHandler]

theorem sbh_invalidCep (apiKey cep : String)
    (locUp : LocUpstream) (wxUp : WUpstream) (hv : validate cep = false) :
    serviceBHandler apiKey "POST" (.object cep) locUp wxUp =
      { status := 422, body := .errorText "invalid zipcode",
        span := [.start "process-weather-request",
                 .recordError ("formato de CEP inválido: " ++ cep), .closeSpan],
        loc := none, wx := none } := by
  simp [serviceBHandler, hv]

theorem sbh_locNotFound (apiKey cep : String)
    (locUp : LocUpstream) (wxUp : WUpstream) (e : LocError)
    (hv : validate cep = true)
    (hloc : (GetLocationByCEP cep locUp).result = .error e)
    (hmsg : e.message = "zipcode not found") :
    serviceBHandler apiKey "POST" (.object cep) locUp wxUp =
      { status := 404, body := .errorText "can not find zipcode",
        span := [.start "process-weather-request", .recordError e.message, .closeSpan],
        loc := some (GetLocationByCEP cep locUp), wx := none } := by
  simp [serviceBHandler, hv, hloc, hmsg]

theorem sbh_locOtherError (apiKey cep : String)
    (locUp : LocUpstream) (wxUp : WUpstream) (e : LocError)
    (hv : validate cep = true)
    (hloc : (GetLocationByCEP cep locUp).result = .error e)
    (hmsg : e.message ≠ "zipcode not found") :
    serviceBHandler apiKey "POST" (.object cep) locUp wxUp =
      { status := 500, body := .errorText "Internal server error",
        span := [.start "process-weather-request", .recordError e.message, .closeSpan],
        loc := some (GetLocationByCEP cep locUp), wx := none } := by
  simp [serviceBHandler, hv, hloc, hmsg]

theorem sbh_wxError (apiKey cep : String)
    (locUp : LocUpstream) (wxUp : WUpstream) (loc : Location) (we : WeatherError)
    (hv : validate cep = true)
    (hloc : (GetLocationByCEP cep locUp).result = .ok loc)
    (hwx : (GetTemperature apiKey loc.city wxUp).result = .error we) :
    serviceBHandler apiKey "POST" (.object cep) locUp wxUp =
      { status := 500, body := .errorText "Internal server error",
        span := [.start "process-weather-request", .recordError we.message, .closeSpan],
        loc := some (GetLocationByCEP cep locUp),
        wx := some (GetTemperature apiKey loc.city wxUp) } := by
  simp [serviceBHandler, hv, hloc, hwx]

theorem sbh_success (apiKey cep : String)
    (locUp : LocUpstream) (wxUp : WUpstream) (loc : Location) (t : ℚ)
    (hv : validate cep = true)
    (hloc : (GetLocationByCEP cep locUp).result = .ok loc)
    (hwx : (GetTemperature apiKey loc.city wxUp).result = .ok t) :
    serviceBHandler apiKey "POST" (.object cep) locUp wxUp =
      { status := 200,
        body := .weather { city := loc.city, temp_C := t,
                           temp_F := t * 1.8 + 32, temp_K := t + 273 },
        span := [.start "process-weather-request", .closeSpan],
        loc := some (GetLocationByCEP cep locUp),
        wx := some (GetTemperature apiKey loc.city wxUp) } := by
  simp [serviceBHandler, hv, hloc, hwx]

/-- The location resolver returns its not-found sentinel exactly when the
upstream payload decoded to an absent or empty `localidade`. -/
theorem locResult_notFound_iff (cep : String) (locUp : LocUpstream) :
    (GetLocationByCEP cep locUp).result = .error .notFound ↔
      ∃ st, locUp = .response st (.ok "") := by
  cases locUp with
  | buildFailure c => simp [GetLocationByCEP]
  | transportFailure c => simp [GetLocationByCEP]
  | response st dec =>
    rcases dec with m | lcity
    · simp [GetLocationByCEP]
    · by_cases hc : lcity = ""
      · subst hc; simp [GetLocationByCEP]
      · simp [GetLocationByCEP, beq_eq_false_iff_ne.mpr hc, hc]

/-- C2: whenever the orchestrator's reply carries an assembled weather body,
its Fahrenheit and Kelvin fields are exactly `tempC*1.8+32` and `tempC+273`
of its Celsius field — the very expressions of the source, with no rounding
applied — and that Celsius field is exactly the value the temperature
resolver returned for this request. -/
theorem c2_assembly_exact_conversions (apiKey method : String) (body : ReqBody)
    (locUp : LocUpstream) (wxUp : WUpstream) (r : WeatherResponse)
    (h : (serviceBHandler apiKey method body locUp wxUp).body = .weather r) :
    r.temp_F = r.temp_C * 1.8 + 32 ∧ r.temp_K = r.temp_C + 273 ∧
      ∃ wc, (serviceBHandler apiKey method body locUp wxUp).wx = some wc ∧
        wc.result = .ok r.temp_C := by
  by_cases hm : method = "POST"
  · subst hm
    cases body with
    | malformed m => rw [sbh_malformedBody] at h; simp at h
    | object cep =>
      by_cases hv : validate cep = true
      · rcases hloc : (GetLocationByCEP cep locUp).result with e | loc
        · by_cases hmsg : e.message = "zipcode not found"
          · rw [sbh_locNotFound apiKey cep locUp wxUp e hv hloc hmsg] at h
            simp at h
          · rw [sbh_locOtherError apiKey cep locUp wxUp e hv hloc hmsg] at h
            simp at h
        · rcases hwx : (GetTemperature apiKey loc.city wxUp).result with we | t
          · rw [sbh_wxError apiKey cep locUp wxUp loc we hv hloc hwx] at h
            simp at h
          · rw [sbh_success apiKey cep locUp wxUp loc t hv hloc hwx] at h
            simp only [OrcBody.weather.injEq] at h
            subst h
            rw [sbh_success apiKey cep locUp wxUp loc t hv hloc hwx]
            exact ⟨rfl, rfl, GetTemperature apiKey loc.city wxUp, rfl, hwx⟩
      · rw [sbh_invalidCep apiKey cep locUp wxUp (by simpa using hv)] at h
        simp at h
  · rw [sbh_notPost apiKey method body locUp wxUp hm] at h
    simp at h

/-- Witness for C2 at the spec's own test vector: city `TestCity`,
Celsius 25. -/
theorem c2_witness :
    (serviceBHandler "key0" "POST" (.object "12345678")
        (.response 200 (.ok "TestCity")) (.response 200 ⟨"", .ok 25⟩)).body =
      .weather ⟨"TestCity", 25, 25 * 1.8 + 32, 25 + 273⟩ ∧
    ((⟨"TestCity", 25, 25 * 1.8 + 32, 25 + 273⟩ : WeatherResponse).temp_F =
        (⟨"TestCity", 25, 25 * 1.8 + 32, 25 + 273⟩ : WeatherResponse).temp_C * 1.8 + 32 ∧
      (⟨"TestCity", 25, 25 * 1.8 + 32, 25 + 273⟩ : WeatherResponse).temp_K =
        (⟨"TestCity", 25, 25 * 1.8 + 32, 25 + 273⟩ : WeatherResponse).temp_C + 273 ∧
      ∃ wc,
        (serviceBHandler "key0" "POST" (.object "12345678")
            (.response 200 (.ok "TestCity")) (.response 200 ⟨"", .ok 25⟩)).wx = some wc ∧
        wc.result = .ok (⟨"TestCity", 25, 25 * 1.8 + 32, 25 + 273⟩ : WeatherResponse).temp_C) :=
  ⟨rfl, c2_assembly_exact_conversions "key0" "POST" (.object "12345678")
      (.response 200 (.ok "TestCity")) (.response 200 ⟨"", .ok 25⟩)
      ⟨"TestCity", 25, 25 * 1.8 + 32, 25 + 273⟩ rfl⟩

/-- C3: at the orchestrator's location stage — the not-found error is
produced exactly when the upstream payload's city field is absent or empty,
and then the outward status is 404; any other location-resolver error
(request-build failure, transport failure, decode failure) gives outward
status 500; on success the pipeline continues into the temperature stage
with the resolved city.  The hypothesis on `m` reflects that `encoding/json`
decode errors are never the `zipcode not found` sentinel string. -/
theorem c3_location_stage_error_mapping
    (apiKey cep cause m city : String) (st : Nat)
    (locUp : LocUpstream) (wxUp : WUpstream)
    (hv : validate cep = true)
    (hm : m ≠ "zipcode not found")
    (hc : city ≠ "") :
    ((GetLocationByCEP cep locUp).result = .error .notFound ↔
       ∃ st', locUp = .response st' (.ok "")) ∧
    (serviceBHandler apiKey "POST" (.object cep) (.response st (.ok "")) wxUp).status = 404 ∧
    (serviceBHandler apiKey "POST" (.object cep) (.transportFailure cause) wxUp).status = 500 ∧
    (serviceBHandler apiKey "POST" (.object cep) (.buildFailure cause) wxUp).status = 500 ∧
    (serviceBHandler apiKey "POST" (.object cep) (.response st (.error m)) wxUp).status = 500 ∧
    (serviceBHandler apiKey "POST" (.object cep) (.response st (.ok city)) wxUp).wx =
      some (GetTemperature apiKey city wxUp) := by
  refine ⟨locResult_notFound_iff cep locUp, ?_, ?_, ?_, ?_, ?_⟩
  · rw [sbh_locNotFound apiKey cep (.response st (.ok "")) wxUp .notFound hv
      (by simp [GetLocationByCEP]) rfl]
  · rw [sbh_locOtherError apiKey cep (.transportFailure cause) wxUp
      (.transport (urlError "Get" (viacepURL cep) cause)) hv rfl
      (urlErrorGet_ne_notfound (viacepURL cep) cause)]
  · rw [sbh_locOtherError apiKey cep (.buildFailure cause) wxUp
      (.build (urlError "parse" (viacepURL cep) cause)) hv rfl
      (urlErrorParse_ne_notfound (viacepURL cep) cause)]
  · rw [sbh_locOtherError apiKey cep (.response st (.error m)) wxUp (.decode m) hv
      (by simp [GetLocationByCEP]) hm]
  · have hloc : (GetLocationByCEP cep (.response st (.ok city))).result = .ok ⟨city⟩ := by
      simp [GetLocationByCEP, beq_eq_false_iff_ne.mpr hc]
    rcases hwx : (GetTemperature apiKey city wxUp).result with we | t
    · rw [sbh_wxError apiKey cep (.response st (.ok city)) wxUp ⟨city⟩ we hv hloc hwx]
    · rw [sbh_success apiKey cep (.response st (.ok city)) wxUp ⟨city⟩ t hv hloc hwx]

/-- Witness for C3 at code `00000000`, transport cause `connection refused`,
decode message `unexpected EOF`, resolved city `TestCity`. -/
theorem c3_witness :
    validate "00000000" = true ∧ "unexpected EOF" ≠ "zipcode not found" ∧
    "TestCity" ≠ "" ∧
    (((GetLocationByCEP "00000000" (.response 200 (.ok ""))).result = .error .notFound ↔
        ∃ st', (LocUpstream.response 200 (.ok "")) = .response st' (.ok "")) ∧
      (serviceBHandler "key0" "POST" (.object "00000000") (.response 200 (.ok ""))
          (.response 200 ⟨"", .ok 25⟩)).status = 404 ∧
      (serviceBHandler "key0" "POST" (.object "00000000")
          (.transportFailure "connection refused") (.response 200 ⟨"", .ok 25⟩)).status = 500 ∧
      (serviceBHandler "key0" "POST" (.object "00000000")
          (.buildFailure "connection refused") (.response 200 ⟨"", .ok 25⟩)).status = 500 ∧
      (serviceBHandler "key0" "POST" (.object "00000000")
          (.response 200 (.error "unexpected EOF")) (.response 200 ⟨"", .ok 25⟩)).status = 500 ∧
      (serviceBHandler "key0" "POST" (.object "00000000") (.response 200 (.ok "TestCity"))
          (.response 200 ⟨"", .ok 25⟩)).wx =
        some (GetTemperature "key0" "TestCity" (.response 200 ⟨"", .ok 25⟩))) :=
  ⟨rfl, by decide, by decide,
    c3_location_stage_error_mapping "key0" "00000000" "connection refused"
      "unexpected EOF" "TestCity" 200 (.response 200 (.ok ""))
      (.response 200 ⟨"", .ok 25⟩) rfl (by decide) (by decide)⟩

/-- C4: a well-formed POST whose `cep` value fails the `^\d{8}$` check is
answered 422 by the gateway without the orchestrator ever being contacted,
and consequently no network request reaches the location or temperature
upstream end-to-end. -/
theorem c4_gateway_rejects_without_forwarding
    (apiKey cep : String) (hop : HopOutcome)
    (locUp : LocUpstream) (wxUp : WUpstream)
    (hv : validate cep = false) :
    (systemHandler apiKey "POST" (.object cep) hop locUp wxUp).status = 422 ∧
    (systemHandler apiKey "POST" (.object cep) hop locUp wxUp).orchestratorContacted = false ∧
    (systemHandler apiKey "POST" (.object cep) hop locUp wxUp).locationNetworkIssued = false ∧
    (systemHandler apiKey "POST" (.object cep) hop locUp wxUp).weatherNetworkIssued = false := by
  refine ⟨?_, ?_, ?_, ?_⟩ <;>
    simp [systemHandler, hv, SystemOutcome.orchestratorContacted,
      SystemOutcome.locationNetworkIssued, SystemOutcome.weatherNetworkIssued]

/-- Witness for C4 at the spec's own test vector, the 3-digit code `123`. -/
theorem c4_witness :
    validate "123" = false ∧
    ((systemHandler "key0" "POST" (.object "123") .delivered
        (.response 200 (.ok "TestCity")) (.response 200 ⟨"", .ok 25⟩)).status = 422 ∧
      (systemHandler "key0" "POST" (.object "123") .delivered
        (.response 200 (.ok "TestCity")) (.response 200 ⟨"", .ok 25⟩)).orchestratorContacted = false ∧
      (systemHandler "key0" "POST" (.object "123") .delivered
        (.response 200 (.ok "TestCity")) (.response 200 ⟨"", .ok 25⟩)).locationNetworkIssued = false ∧
      (systemHandler "key0" "POST" (.object "123") .delivered
        (.response 200 (.ok "TestCity")) (.response 200 ⟨"", .ok 25⟩)).weatherNetworkIssued = false) :=
  ⟨rfl, c4_gateway_rejects_without_forwarding "key0" "123" .delivered
    (.response 200 (.ok "TestCity")) (.response 200 ⟨"", .ok 25⟩) rfl⟩

/-- Counterexample to C5 as stated: with the credential absent, the
`weatherapi-call` span — the span for the call itself — IS opened:
`tracer.Start` runs before the `WEATHER_API_KEY` check in
`internal/weather/weather.go`, so the call's own span records the error,
not only a surrounding parent span. -/
theorem c5_counterexample_span_opened :
    (GetTemperature "" "Sao Paulo" (.response 200 ⟨"", .ok 25⟩)).span.head? =
      some (.start "weatherapi-call") := rfl

/-- C5 (amended): with the credential absent, `GetTemperature` returns a
`ConfigurationError` before any network call is issued, but the span for the
call itself is opened first, records the error, and is closed with error
status; end-to-end the outward status is 500 and no request reaches the
temperature upstream. -/
theorem c5_missing_credential_config_error
    (city cep lcity : String) (st : Nat) (wxUp : WUpstream)
    (hv : validate cep = true) (hc : lcity ≠ "") :
    (GetTemperature "" city wxUp).result = .error .config ∧
    (GetTemperature "" city wxUp).networkIssued = false ∧
    (GetTemperature "" city wxUp).span =
      [.start "weatherapi-call", .recordError "WEATHER_API_KEY not set",
       .setStatus (.error "WEATHER_API_KEY not set"), .closeSpan] ∧
    (systemHandler "" "POST" (.object cep) .delivered
        (.response st (.ok lcity)) wxUp).status = 500 ∧
    (systemHandler "" "POST" (.object cep) .delivered
        (.response st (.ok lcity)) wxUp).weatherNetworkIssued = false := by
  have hloc : (GetLocationByCEP cep (.response st (.ok lcity))).result = .ok ⟨lcity⟩ := by
    simp [GetLocationByCEP, beq_eq_false_iff_ne.mpr hc]
  have hwx : (GetTemperature "" lcity wxUp).result = .error .config := by
    simp [GetTemperature]
  have hsys : systemHandler "" "POST" (.object cep) .delivered
      (.response st (.ok lcity)) wxUp =
      { status := (serviceBHandler "" "POST" (.object cep) (.response st (.ok lcity)) wxUp).status,
        body := (serviceBHandler "" "POST" (.object cep) (.response st (.ok lcity)) wxUp).body,
        orc := some (serviceBHandler "" "POST" (.object cep) (.response st (.ok lcity)) wxUp) } := by
    simp [systemHandler, hv]
  refine ⟨hwx, by simp [GetTemperature], by simp [GetTemperature], ?_, ?_⟩
  · rw [hsys]
    rw [sbh_wxError "" cep (.response st (.ok lcity)) wxUp ⟨lcity⟩ .config hv hloc hwx]
  · rw [hsys]
    show (serviceBHandler "" "POST" (.object cep) (.response st (.ok lcity)) wxUp).weatherNetworkIssued = false
    rw [sbh_wxError "" cep (.response st (.ok lcity)) wxUp ⟨lcity⟩ .config hv hloc hwx]
    show (GetTemperature "" lcity wxUp).networkIssued = false
    simp [GetTemperature]

/-- Witness for C5 (amended) at code `01001000`, resolved city `TestCity`. -/
theorem c5_witness :
    validate "01001000" = true ∧ "TestCity" ≠ "" ∧
    ((GetTemperature "" "Sao Paulo" (.response 200 ⟨"", .ok 25⟩)).result = .error .config ∧
      (GetTemperature "" "Sao Paulo" (.response 200 ⟨"", .ok 25⟩)).networkIssued = false ∧
      (GetTemperature "" "Sao Paulo" (.response 200 ⟨"", .ok 25⟩)).span =
        [.start "weatherapi-call", .recordError "WEATHER_API_KEY not set",
         .setStatus (.error "WEATHER_API_KEY not set"), .closeSpan] ∧
      (systemHandler "" "POST" (.object "01001000") .delivered
          (.response 200 (.ok "TestCity")) (.response 200 ⟨"", .ok 25⟩)).status = 500 ∧
      (systemHandler "" "POST" (.object "01001000") .delivered
          (.response 200 (.ok "TestCity")) (.response 200 ⟨"", .ok 25⟩)).weatherNetworkIssued = false) :=
  ⟨rfl, by decide,
    c5_missing_credential_config_error "Sao Paulo" "01001000" "TestCity" 200
      (.response 200 ⟨"", .ok 25⟩) rfl (by decide)⟩

/-- C6 (bug in the code): the request URL recorded on the `weatherapi-call`
span's `http.url` attribute is the full URL INCLUDING the API credential —
for credential `SECRET` and city `X` the attribute value is
`…?key=SECRET&q=X` — although the source's own comment on that line claims
the attribute omits the key for security. -/
theorem c6_credential_appears_in_span_url :
    (GetTemperature "SECRET" "X" (.response 200 ⟨"", .ok 25⟩)).span =
      [.start "weatherapi-call",
       .attrStr "weatherapi.city" "X",
       .attrStr "http.url"
         ("https://api.weatherapi.com/v1/current.json?key=" ++ "SECRET" ++ "&q=X"),
       .attrInt "http.status_code" 200,
       .attrRat "weather.temperature_celsius" 25,
       .setStatus (.ok "Temperatura obtida com sucesso"),
       .closeSpan] := rfl

/-- Counterexample to C7 as stated: status 201 lies in the 2xx range yet the
resolver returns `UpstreamError` instead of decoding the body — the source
checks `resp.StatusCode != http.StatusOK`, i.e. `!= 200`, not "not 2xx". -/
theorem c7_counterexample_201_upstream_error :
    (GetTemperature "key0" "CityA" (.response 201 ⟨"created", .ok 25⟩)).result =
      .error .upstream := rfl

/-- C7 (amended): for every response with status other than exactly 200, the
temperature resolver captures the response body for diagnostic logging,
marks its span with error status, and returns `UpstreamError`; conversely a
200 response never yields `UpstreamError` — it proceeds to decode. -/
theorem c7_non_200_upstream_error
    (apiKey city raw : String) (dec : Except String ℚ) (st : Nat)
    (hk : apiKey ≠ "") :
    (st ≠ 200 →
      (GetTemperature apiKey city (.response st ⟨raw, dec⟩)).loggedBody = some raw ∧
      SpanEvent.setStatus (.error "weather lookup failed") ∈
        (GetTemperature apiKey city (.response st ⟨raw, dec⟩)).span ∧
      (GetTemperature apiKey city (.response st ⟨raw, dec⟩)).result = .error .upstream) ∧
    (st = 200 →
      (GetTemperature apiKey city (.response st ⟨raw, dec⟩)).result ≠ .error .upstream) := by
  have hk' : (apiKey == "") = false := beq_eq_false_iff_ne.mpr hk
  constructor
  · intro hst
    refine ⟨?_, ?_, ?_⟩ <;> simp [GetTemperature, hk', hst]
  · intro hst
    subst hst
    rcases dec with mm | t <;> simp [GetTemperature, hk']

/-- Witness for C7 (amended) at status 503. -/
theorem c7_witness :
    "key0" ≠ "" ∧
    (((503 : Nat) ≠ 200 →
        (GetTemperature "key0" "CityB" (.response 503 ⟨"oops", .ok 25⟩)).loggedBody = some "oops" ∧
        SpanEvent.setStatus (.error "weather lookup failed") ∈
          (GetTemperature "key0" "CityB" (.response 503 ⟨"oops", .ok 25⟩)).span ∧
        (GetTemperature "key0" "CityB" (.response 503 ⟨"oops", .ok 25⟩)).result =
          .error .upstream) ∧
      ((503 : Nat) = 200 →
        (GetTemperature "key0" "CityB" (.response 503 ⟨"oops", .ok 25⟩)).result ≠
          .error .upstream)) :=
  ⟨by decide, c7_non_200_upstream_error "key0" "CityB" "oops" (.ok 25) 503 (by decide)⟩

/-- Counterexample to C8 as stated: status 204 is a success (2xx) status and
the body is malformed, yet the resolver returns `UpstreamError`, not
`DecodeError` — only exactly 200 reaches the decoder. -/
theorem c8_counterexample_204_not_decode_error :
    (GetTemperature "key0" "CityC" (.response 204 ⟨"oops", .error "unexpected EOF"⟩)).result =
        .error .upstream ∧
    (GetTemperature "key0" "CityC" (.response 204 ⟨"oops", .error "unexpected EOF"⟩)).result ≠
        .error (.decode "unexpected EOF") :=
  ⟨rfl, by decide⟩

/-- C8 (amended): for every response with status exactly 200 whose body is
malformed — `encoding/json` fails with message `m` — the temperature
resolver returns `DecodeError` carrying that message, not a temperature. -/
theorem c8_200_malformed_decode_error (apiKey city raw m : String)
    (hk : apiKey ≠ "") :
    (GetTemperature apiKey city (.response 200 ⟨raw, .error m⟩)).result =
      .error (.decode m) := by
  have hk' : (apiKey == "") = false := beq_eq_false_iff_ne.mpr hk
  simp [GetTemperature, hk']

/-- Witness for C8 (amended). -/
theorem c8_witness :
    "key0" ≠ "" ∧
    (GetTemperature "key0" "CityD" (.response 200 ⟨"not json", .error "invalid character"⟩)).result =
      .error (.decode "invalid character") :=
  ⟨by decide,
    c8_200_malformed_decode_error "key0" "CityD" "not json" "invalid character" (by decide)⟩

/-- C9: on every exit path of `GetLocationByCEP` and `GetTemperature` —
success, not-found, request-build failure, transport failure, decode
failure, upstream rejection, missing credential — the span the call opened
is closed exactly once, is the first event, and its close is the last
event: no path leaves it open or closes it twice (the `defer span.End()`). -/
theorem c9_resolver_spans_closed_exactly_once
    (cep apiKey city : String) (locUp : LocUpstream) (wxUp : WUpstream) :
    spanDiscipline (GetLocationByCEP cep locUp).span ∧
    spanDiscipline (GetTemperature apiKey city wxUp).span := by
  constructor
  · cases locUp with
    | buildFailure c =>
        simp [GetLocationByCEP, spanDiscipline, isStart, isClose, lastEvent]
    | transportFailure c =>
        simp [GetLocationByCEP, spanDiscipline, isStart, isClose, lastEvent]
    | response st dec =>
        rcases dec with mm | lcity
        · simp [GetLocationByCEP, spanDiscipline, isStart, isClose, lastEvent]
        · by_cases hc : lcity = ""
          · subst hc
            simp [GetLocationByCEP, spanDiscipline, isStart, isClose, lastEvent]
          · simp [GetLocationByCEP, spanDiscipline, isStart, isClose, lastEvent,
              beq_eq_false_iff_ne.mpr hc]
  · by_cases hk : apiKey = ""
    · subst hk
      simp [GetTemperature, spanDiscipline, isStart, isClose, lastEvent]
    · have hk' : (apiKey == "") = false := beq_eq_false_iff_ne.mpr hk
      cases wxUp with
      | buildFailure c =>
          simp [GetTemperature, spanDiscipline, isStart, isClose, lastEvent, hk']
      | transportFailure c =>
          simp [GetTemperature, spanDiscipline, isStart, isClose, lastEvent, hk']
      | response st body =>
          by_cases hst : st = 200
          · subst hst
            rcases hbody : body.decoded with mm | t <;>
              simp [GetTemperature, spanDiscipline, isStart, isClose, lastEvent,
                hk', hbody]
          · simp [GetTemperature, spanDiscipline, isStart, isClose, lastEvent,
              hk', hst]

/-- C10: in the single-service variant's handler, EVERY error from the
location lookup — transport failure, request-build failure, decode failure,
and not-found alike — yields outward status 404; the variant never maps a
location-stage failure to 500. -/
theorem c10_variant_location_errors_all_404
    (cep apiKey : String) (locUp : LocUpstream) (wxUp : WUpstream) (e : LocError)
    (hv : validate cep = true)
    (he : (GetLocationByCEP cep locUp).result = .error e) :
    (cmdHandler cep apiKey locUp wxUp).status = 404 := by
  simp [cmdHandler, hv, he]

/-- Witness for C10: code `00000000` with a transport failure — not a
not-found — still answers 404 in the variant. -/
theorem c10_witness :
    validate "00000000" = true ∧
    (GetLocationByCEP "00000000" (.transportFailure "connection refused")).result =
      .error (.transport (urlError "Get" (viacepURL "00000000") "connection refused")) ∧
    (cmdHandler "00000000" "key0" (.transportFailure "connection refused")
        (.response 200 ⟨"", .ok 25⟩)).status = 404 :=
  ⟨rfl, rfl,
    c10_variant_location_errors_all_404 "00000000" "key0"
      (.transportFailure "connection refused") (.response 200 ⟨"", .ok 25⟩)
      (.transport (urlError "Get" (viacepURL "00000000") "connection refused")) rfl rfl⟩
